import Mathlib

/-!
Shallow embedding of the reference-resolution engine of `src/resolve.rs`
(crate `openapiv3`): resolving pointer strings of the form
`#/components/<category>/<name>` against an OpenAPI document.

The Rust code is three layers, wired per entity type by macros:

* `resolve_root_optional!` — document-level dispatch (`Resolve<T> for OpenAPI`):
  strip the `#/` leading characters, split once on `/`, require the root
  segment `components`, require the component container to be present,
  delegate the rest of the path.
* `resolve_with_openapi!` — component-container dispatch
  (`ResolveWithOpenAPIAndPath<T> for Components`): split once on `/`, match the
  category segment against `stringify!($property_name)` (the Rust field
  identifier), delegate to that field's map.
* `resolve_with_openapi_index_map!` — category-map lookup
  (`ResolveWithOpenAPIAndPath<T> for IndexMap<String, ReferenceOr<T>>`): look up
  the whole remaining tail as a key; an `Item` is returned, a `Reference`
  recurses into the document-level dispatch.

The mutual recursion (map lookup back into document dispatch) has no guard in
the source, so the embedding threads a fuel parameter: the result type is
`Option (Option T)` where the outer `none` means the recursion did not finish
within the given fuel, `some none` is the code's `None` ("not found"), and
`some (some x)` is the code's `Some(x)`.
-/

/-- Rust's `ReferenceOr<T>`: either a pointer string or an inline item. -/
inductive ReferenceOr (T : Type) : Type where
  | Reference (reference : String) : ReferenceOr T
  | Item (item : T) : ReferenceOr T
deriving DecidableEq, Repr

/-- Key lookup of `IndexMap<String, V>` (`self.get(path)`), modelled on an
association list with unique keys: the value stored under the first matching
key. -/
def getKey {V : Type} : List (String × V) → String → Option V
  | [], _ => none
  | (k', v) :: rest, k => if k' = k then some v else getKey rest k

/-- Rust's `Components` struct: one category map per entity category. Each
category has its own item type. Field names are the Rust field identifiers,
which is what `stringify!($property_name)` turns into the matched literal. -/
structure Components (Cb Ex Hd Lk Pa Rb Rs Sc Ss : Type) : Type where
  callbacks : List (String × ReferenceOr Cb)
  examples : List (String × ReferenceOr Ex)
  headers : List (String × ReferenceOr Hd)
  links : List (String × ReferenceOr Lk)
  parameters : List (String × ReferenceOr Pa)
  request_bodies : List (String × ReferenceOr Rb)
  responses : List (String × ReferenceOr Rs)
  schemas : List (String × ReferenceOr Sc)
  security_schemes : List (String × ReferenceOr Ss)
deriving DecidableEq, Repr

/-- Rust's `OpenAPI` struct, as far as resolution can see it: an optional
component container plus all remaining top-level sections (`paths`, `info`,
…), abstracted into a single field `otherSections` of arbitrary type. -/
structure OpenAPI (Cb Ex Hd Lk Pa Rb Rs Sc Ss R : Type) : Type where
  components : Option (Components Cb Ex Hd Lk Pa Rb Rs Sc Ss)
  otherSections : R
deriving DecidableEq, Repr

/-- Rust `str::split_once(c)` on a character list: split at the first
occurrence of `c`, returning the parts before and after it; `none` when `c`
does not occur. -/
def splitOnceL (c : Char) : List Char → Option (List Char × List Char)
  | [] => none
  | x :: xs =>
    if x = c then some ([], xs)
    else
      match splitOnceL c xs with
      | some (l, r) => some (x :: l, r)
      | none => none

/-- Rust `str::split_once(c)` on strings. -/
def splitOnce (s : String) (c : Char) : Option (String × String) :=
  match splitOnceL c s.data with
  | some (l, r) => some (⟨l⟩, ⟨r⟩)
  | none => none

/-- Rust `path.strip_prefix("#/")`: remove the two leading characters `#` and
`/` when present, `none` otherwise. -/
def stripHashSlash (s : String) : Option String :=
  match s.data with
  | '#' :: '/' :: rest => some ⟨rest⟩
  | _ => none

section Resolution

variable {Cb Ex Hd Lk Pa Rb Rs Sc Ss R T : Type}

/-- The category-map lookup of `resolve_with_openapi_index_map!`, with the
recursive call `openapi.resolve(reference)` abstracted as `resolveRef`:
`self.get(path)?` then return an `Item` or chase a `Reference`. -/
def resolveIndexMapWith (resolveRef : String → Option (Option T))
    (m : List (String × ReferenceOr T)) (path : String) : Option (Option T) :=
  match getKey m path with
  | none => some none
  | some (ReferenceOr.Reference reference) => resolveRef reference
  | some (ReferenceOr.Item item) => some (some item)

/-- The component-container dispatch of `resolve_with_openapi!`, for the
category whose matched literal (`stringify!($property_name)`) is `lit` and
whose field accessor (`self.$property_name`) is `proj`:
`path.split_once('/')?`, match the first segment against the literal,
delegate the tail to the category map. -/
def resolveComponentsWith (lit : String)
    (proj : Components Cb Ex Hd Lk Pa Rb Rs Sc Ss → List (String × ReferenceOr T))
    (resolveRef : String → Option (Option T))
    (c : Components Cb Ex Hd Lk Pa Rb Rs Sc Ss) (path : String) :
    Option (Option T) :=
  match splitOnce path '/' with
  | none => some none
  | some (root_path, sub_path) =>
    if root_path = lit then resolveIndexMapWith resolveRef (proj c) sub_path
    else some none

/-- The document-level dispatch of `resolve_root_optional!` (`Resolve<T> for
OpenAPI`), with fuel for the unguarded recursion:
`path.strip_prefix("#/")?`, `path.split_once('/')?`, match `"components"`,
`self.components.as_ref()?`, then delegate into the container. The recursive
reference chase re-enters this function with one unit of fuel less. -/
def resolveRootFuel (lit : String)
    (proj : Components Cb Ex Hd Lk Pa Rb Rs Sc Ss → List (String × ReferenceOr T)) :
    Nat → OpenAPI Cb Ex Hd Lk Pa Rb Rs Sc Ss R → String → Option (Option T)
  | 0, _, _ => none
  | n + 1, o, path =>
    match stripHashSlash path with
    | none => some none
    | some stripped =>
      match splitOnce stripped '/' with
      | none => some none
      | some (root_path, sub_path) =>
        if root_path = "components" then
          match o.components with
          | none => some none
          | some c =>
            resolveComponentsWith lit proj
              (fun reference => resolveRootFuel lit proj n o reference) c sub_path
        else some none

/-- Impl `ResolveWithOpenAPI<T> for ReferenceOr<T>`: an `Item` is returned directly,
a `Reference` goes through the document-level dispatch. -/
def resolveRefOrFuel (lit : String)
    (proj : Components Cb Ex Hd Lk Pa Rb Rs Sc Ss → List (String × ReferenceOr T))
    (n : Nat) (node : ReferenceOr T) (o : OpenAPI Cb Ex Hd Lk Pa Rb Rs Sc Ss R) :
    Option (Option T) :=
  match node with
  | ReferenceOr.Reference reference => resolveRootFuel lit proj n o reference
  | ReferenceOr.Item item => some (some item)

/-- Impl `ResolveWithOpenAPI<T> for Option<ReferenceOr<T>>`:
`self.as_ref()?.resolve(openapi)` — absence short-circuits to `None`. -/
def resolveOptRefOrFuel (lit : String)
    (proj : Components Cb Ex Hd Lk Pa Rb Rs Sc Ss → List (String × ReferenceOr T))
    (n : Nat) (node : Option (ReferenceOr T))
    (o : OpenAPI Cb Ex Hd Lk Pa Rb Rs Sc Ss R) : Option (Option T) :=
  match node with
  | none => some none
  | some inner => resolveRefOrFuel lit proj n inner o

end Resolution

section Instances

variable {Cb Ex Hd Lk Pa Rb Rs Sc Ss R : Type}

/-- Instantiation `resolve_root_optional!(components, Callback)` wired through
`resolve_with_openapi!(Components, callbacks, Callback)`. -/
def resolveCallback : Nat → OpenAPI Cb Ex Hd Lk Pa Rb Rs Sc Ss R → String → Option (Option Cb) :=
  resolveRootFuel "callbacks" Components.callbacks

/-- Instantiation for `Example` (field `examples`). -/
def resolveExample : Nat → OpenAPI Cb Ex Hd Lk Pa Rb Rs Sc Ss R → String → Option (Option Ex) :=
  resolveRootFuel "examples" Components.examples

/-- Instantiation for `Header` (field `headers`). -/
def resolveHeader : Nat → OpenAPI Cb Ex Hd Lk Pa Rb Rs Sc Ss R → String → Option (Option Hd) :=
  resolveRootFuel "headers" Components.headers

/-- Instantiation for `Link` (field `links`). -/
def resolveLink : Nat → OpenAPI Cb Ex Hd Lk Pa Rb Rs Sc Ss R → String → Option (Option Lk) :=
  resolveRootFuel "links" Components.links

/-- Instantiation for `Parameter` (field `parameters`). -/
def resolveParameter : Nat → OpenAPI Cb Ex Hd Lk Pa Rb Rs Sc Ss R → String → Option (Option Pa) :=
  resolveRootFuel "parameters" Components.parameters

/-- Instantiation for `RequestBody` (field `request_bodies`): the matched
category literal is `stringify!(request_bodies)`, i.e. `"request_bodies"`. -/
def resolveRequestBody : Nat → OpenAPI Cb Ex Hd Lk Pa Rb Rs Sc Ss R → String → Option (Option Rb) :=
  resolveRootFuel "request_bodies" Components.request_bodies

/-- Instantiation for `Response` (field `responses`). -/
def resolveResponse : Nat → OpenAPI Cb Ex Hd Lk Pa Rb Rs Sc Ss R → String → Option (Option Rs) :=
  resolveRootFuel "responses" Components.responses

/-- Instantiation for `Schema` (field `schemas`). -/
def resolveSchema : Nat → OpenAPI Cb Ex Hd Lk Pa Rb Rs Sc Ss R → String → Option (Option Sc) :=
  resolveRootFuel "schemas" Components.schemas

/-- Instantiation for `SecurityScheme` (field `security_schemes`): the matched
category literal is `stringify!(security_schemes)`, i.e.
`"security_schemes"`. -/
def resolveSecurityScheme : Nat → OpenAPI Cb Ex Hd Lk Pa Rb Rs Sc Ss R → String → Option (Option Ss) :=
  resolveRootFuel "security_schemes" Components.security_schemes

end Instances

/-- The pointer-string format `#/components/<category>/<name>`. -/
def mkPointer (cat name : String) : String :=
  "#/components/" ++ cat ++ "/" ++ name

/-- A concrete all-`Nat` document for sanity checks and witnesses. -/
def emptyComponentsNat : Components Nat Nat Nat Nat Nat Nat Nat Nat Nat :=
  ⟨[], [], [], [], [], [], [], [], []⟩

/-! ### One-step characterization of the document-level dispatch -/

/-- Outcome of one parsing-and-lookup pass of the dispatch: a failure
(`notFound`), an inline item (`found`), or another pointer string to chase
(`redirect`). -/
inductive StepOutcome (T : Type) : Type where
  | notFound : StepOutcome T
  | found (x : T) : StepOutcome T
  | redirect (r : String) : StepOutcome T
deriving DecidableEq, Repr

/-- The non-recursive part of `resolveRootFuel`: every parsing step and the
map lookup, stopping where the code would recurse. -/
def resolveStep {Cb Ex Hd Lk Pa Rb Rs Sc Ss R T : Type} (lit : String)
    (proj : Components Cb Ex Hd Lk Pa Rb Rs Sc Ss → List (String × ReferenceOr T))
    (o : OpenAPI Cb Ex Hd Lk Pa Rb Rs Sc Ss R) (path : String) : StepOutcome T :=
  match stripHashSlash path with
  | none => StepOutcome.notFound
  | some stripped =>
    match splitOnce stripped '/' with
    | none => StepOutcome.notFound
    | some (root_path, sub_path) =>
      if root_path = "components" then
        match o.components with
        | none => StepOutcome.notFound
        | some c =>
          match splitOnce sub_path '/' with
          | none => StepOutcome.notFound
          | some (cat, name) =>
            if cat = lit then
              match getKey (proj c) name with
              | none => StepOutcome.notFound
              | some (ReferenceOr.Reference r) => StepOutcome.redirect r
              | some (ReferenceOr.Item x) => StepOutcome.found x
            else StepOutcome.notFound
      else StepOutcome.notFound


/-- Resolution returns `r`: some amount of fuel suffices for the
document-level dispatch to terminate with result `r` (`r = none` is the
code's "not found", `r = some x` a successful resolution). -/
def Resolves {Cb Ex Hd Lk Pa Rb Rs Sc Ss R T : Type} (lit : String)
    (proj : Components Cb Ex Hd Lk Pa Rb Rs Sc Ss → List (String × ReferenceOr T))
    (o : OpenAPI Cb Ex Hd Lk Pa Rb Rs Sc Ss R) (path : String) (r : Option T) : Prop :=
  ∃ n : Nat, resolveRootFuel lit proj n o path = some r

/-- The recursion of the dispatch halts on `path`: the chain of redirects from
`path` reaches, after finitely many hops, either a failing step or an inline
item. -/
inductive Halts {Cb Ex Hd Lk Pa Rb Rs Sc Ss R T : Type} (lit : String)
    (proj : Components Cb Ex Hd Lk Pa Rb Rs Sc Ss → List (String × ReferenceOr T))
    (o : OpenAPI Cb Ex Hd Lk Pa Rb Rs Sc Ss R) : String → Prop where
  | fail {path : String} : resolveStep lit proj o path = StepOutcome.notFound →
      Halts lit proj o path
  | found {path : String} {x : T} : resolveStep lit proj o path = StepOutcome.found x →
      Halts lit proj o path
  | step {path r : String} : resolveStep lit proj o path = StepOutcome.redirect r →
      Halts lit proj o r → Halts lit proj o path


/-! ### Concrete documents (all entity types instantiated at `Nat`) -/

/-- Witness document for direct lookup: `schemas` holds `a ↦ Inline(5)`. -/
def compDirect : Components Nat Nat Nat Nat Nat Nat Nat Nat Nat :=
  { emptyComponentsNat with schemas := [("a", ReferenceOr.Item 5)] }

def docDirect : OpenAPI Nat Nat Nat Nat Nat Nat Nat Nat Nat Nat :=
  ⟨some compDirect, 0⟩

/-- Two-hop chain: `k1 ↦ Pointer(#/components/schemas/k2)`, `k2 ↦ Inline(7)`. -/
def compChain : Components Nat Nat Nat Nat Nat Nat Nat Nat Nat :=
  { emptyComponentsNat with
    schemas := [("k1", ReferenceOr.Reference (mkPointer "schemas" "k2")),
                ("k2", ReferenceOr.Item 7)] }

def docChain : OpenAPI Nat Nat Nat Nat Nat Nat Nat Nat Nat Nat :=
  ⟨some compChain, 0⟩

/-- A document with no component container at all. -/
def docNoComp : OpenAPI Nat Nat Nat Nat Nat Nat Nat Nat Nat Nat :=
  ⟨none, 0⟩

/-- Dangling reference: `d` points at a name that is absent. -/
def compDangling : Components Nat Nat Nat Nat Nat Nat Nat Nat Nat :=
  { emptyComponentsNat with
    schemas := [("d", ReferenceOr.Reference (mkPointer "schemas" "missing"))] }

def docDangling : OpenAPI Nat Nat Nat Nat Nat Nat Nat Nat Nat Nat :=
  ⟨some compDangling, 0⟩

/-- Request-bodies / security-schemes maps populated, for exercising the
category literals of those two entity types. -/
def compTwoWords : Components Nat Nat Nat Nat Nat Nat Nat Nat Nat :=
  { emptyComponentsNat with
    request_bodies := [("k", ReferenceOr.Item 9)],
    security_schemes := [("s", ReferenceOr.Item 3)] }

def docTwoWords : OpenAPI Nat Nat Nat Nat Nat Nat Nat Nat Nat Nat :=
  ⟨some compTwoWords, 0⟩

/-- Only the key `schema_1` exists: no key equal to `schema_1/extra`. -/
def compFourSeg : Components Nat Nat Nat Nat Nat Nat Nat Nat Nat :=
  { emptyComponentsNat with schemas := [("schema_1", ReferenceOr.Item 1)] }

def docFourSeg : OpenAPI Nat Nat Nat Nat Nat Nat Nat Nat Nat Nat :=
  ⟨some compFourSeg, 0⟩

/-- A key literally containing a slash: `schema_1/extra ↦ Inline(2)`. -/
def compSlashKey : Components Nat Nat Nat Nat Nat Nat Nat Nat Nat :=
  { emptyComponentsNat with
    schemas := [("schema_1", ReferenceOr.Item 1), ("schema_1/extra", ReferenceOr.Item 2)] }

def docSlashKey : OpenAPI Nat Nat Nat Nat Nat Nat Nat Nat Nat Nat :=
  ⟨some compSlashKey, 0⟩

/-- Cyclic chain: `a` points at `b` and `b` points back at `a`. -/
def compCyc : Components Nat Nat Nat Nat Nat Nat Nat Nat Nat :=
  { emptyComponentsNat with
    schemas := [("a", ReferenceOr.Reference (mkPointer "schemas" "b")),
                ("b", ReferenceOr.Reference (mkPointer "schemas" "a"))] }

def docCyc : OpenAPI Nat Nat Nat Nat Nat Nat Nat Nat Nat Nat :=
  ⟨some compCyc, 0⟩

/-- An entry stored under the empty-string key that is a dangling pointer. -/
def compEmptyKeyRef : Components Nat Nat Nat Nat Nat Nat Nat Nat Nat :=
  { emptyComponentsNat with schemas := [("", ReferenceOr.Reference "x")] }

def docEmptyKeyRef : OpenAPI Nat Nat Nat Nat Nat Nat Nat Nat Nat Nat :=
  ⟨some compEmptyKeyRef, 0⟩

/-- An inline entry stored under the empty-string key. -/
def compEmptyKeyItem : Components Nat Nat Nat Nat Nat Nat Nat Nat Nat :=
  { emptyComponentsNat with schemas := [("", ReferenceOr.Item 4)] }

def docEmptyKeyItem : OpenAPI Nat Nat Nat Nat Nat Nat Nat Nat Nat Nat :=
  ⟨some compEmptyKeyItem, 0⟩

/-- Same schemas map as `docDirect`, but a populated responses map and a
different (differently-typed) remaining-sections value. -/
def docOtherSections : OpenAPI Nat Nat Nat Nat Nat Nat Nat Nat Nat Bool :=
  ⟨some { emptyComponentsNat with
          schemas := [("a", ReferenceOr.Item 5)],
          responses := [("r", ReferenceOr.Item 1)],
          headers := [("h", ReferenceOr.Item 2)] }, true⟩

/-- A pointer chain inside one category map, ending at an inline item:
`k₀ ↦ Pointer(#/components/<lit>/k₁)`, …, `k_last ↦ Inline(x)`. -/
def PointerChain {T : Type} (lit : String) (m : List (String × ReferenceOr T))
    (x : T) : List String → Prop
  | [] => False
  | [k] => getKey m k = some (ReferenceOr.Item x)
  | k :: k' :: rest =>
    getKey m k = some (ReferenceOr.Reference (mkPointer lit k')) ∧
      PointerChain lit m x (k' :: rest)


/-! ### String-level helper lemmas -/

theorem data_mk (l : List Char) : (String.mk l).data = l := rfl

theorem data_append (s t : String) : (s ++ t).data = s.data ++ t.data := by
  cases s; cases t; rfl

theorem splitOnceL_eq_none {c : Char} {l : List Char} (h : c ∉ l) :
    splitOnceL c l = none := by
  induction l with
  | nil => rfl
  | cons x xs ih =>
    have hxc : ¬ (x = c) := fun hx => h (by simp [hx])
    simp [splitOnceL, hxc, ih (fun hm => h (List.mem_cons_of_mem _ hm))]

theorem splitOnceL_append {c : Char} {l : List Char} (h : c ∉ l) (r : List Char) :
    splitOnceL c (l ++ c :: r) = some (l, r) := by
  induction l with
  | nil => simp [splitOnceL]
  | cons x xs ih =>
    have hxc : ¬ (x = c) := fun hx => h (by simp [hx])
    simp [splitOnceL, hxc, ih (fun hm => h (List.mem_cons_of_mem _ hm))]

theorem mkPointer_data (cat name : String) :
    (mkPointer cat name).data =
      '#' :: '/' :: ("components".data ++ '/' :: (cat.data ++ '/' :: name.data)) := by
  have h1 : "#/components/".data = '#' :: '/' :: ("components".data ++ ['/']) := rfl
  simp [mkPointer, data_append, h1]

theorem stripHashSlash_mkPointer (cat name : String) :
    stripHashSlash (mkPointer cat name) =
      some ⟨"components".data ++ '/' :: (cat.data ++ '/' :: name.data)⟩ := by
  rw [stripHashSlash, mkPointer_data]; rfl

theorem mk_data_eta (s : String) : (⟨s.data⟩ : String) = s := rfl

/-- One full dispatch step on a well-formed pointer `#/components/<lit>/<name>`
whose category segment matches the instantiated literal: the document-level
dispatch lands exactly on the category-map lookup of `name`. -/
theorem resolveRootFuel_mkPointer {Cb Ex Hd Lk Pa Rb Rs Sc Ss R T : Type}
    (lit : String)
    (proj : Components Cb Ex Hd Lk Pa Rb Rs Sc Ss → List (String × ReferenceOr T))
    (hlit : '/' ∉ lit.data)
    {o : OpenAPI Cb Ex Hd Lk Pa Rb Rs Sc Ss R}
    {c : Components Cb Ex Hd Lk Pa Rb Rs Sc Ss}
    (hc : o.components = some c) (n : Nat) (name : String) :
    resolveRootFuel lit proj (n + 1) o (mkPointer lit name) =
      resolveIndexMapWith (fun r => resolveRootFuel lit proj n o r) (proj c) name := by
  have hcompNoSlash : ('/' : Char) ∉ "components".data := by decide
  simp only [resolveRootFuel, stripHashSlash_mkPointer, splitOnce, data_mk,
    splitOnceL_append hcompNoSlash, mk_data_eta, if_pos rfl, hc,
    resolveComponentsWith, splitOnceL_append hlit, if_true]

theorem resolveRootFuel_succ {Cb Ex Hd Lk Pa Rb Rs Sc Ss R T : Type} (lit : String)
    (proj : Components Cb Ex Hd Lk Pa Rb Rs Sc Ss → List (String × ReferenceOr T))
    (n : Nat) (o : OpenAPI Cb Ex Hd Lk Pa Rb Rs Sc Ss R) (path : String) :
    resolveRootFuel lit proj (n + 1) o path =
      match resolveStep lit proj o path with
      | StepOutcome.notFound => some none
      | StepOutcome.found x => some (some x)
      | StepOutcome.redirect r => resolveRootFuel lit proj n o r := by
  rcases hs : stripHashSlash path with _ | stripped
  · simp [resolveRootFuel, resolveStep, hs]
  · rcases hsp : splitOnce stripped '/' with _ | ⟨root_path, sub_path⟩
    · simp [resolveRootFuel, resolveStep, hs, hsp]
    · by_cases hroot : root_path = "components"
      · subst hroot
        rcases hc : o.components with _ | c
        · simp [resolveRootFuel, resolveStep, hs, hsp, hc]
        · rcases hsc : splitOnce sub_path '/' with _ | ⟨cat, name⟩
          · simp [resolveRootFuel, resolveStep, resolveComponentsWith, hs, hsp, hc, hsc]
          · by_cases hcat : cat = lit
            · subst hcat
              rcases hk : getKey (proj c) name with _ | ⟨r⟩ | ⟨x⟩
              · simp [resolveRootFuel, resolveStep, resolveComponentsWith,
                  resolveIndexMapWith, hs, hsp, hc, hsc, hk]
              · simp [resolveRootFuel, resolveStep, resolveComponentsWith,
                  resolveIndexMapWith, hs, hsp, hc, hsc, hk]
              · simp [resolveRootFuel, resolveStep, resolveComponentsWith,
                  resolveIndexMapWith, hs, hsp, hc, hsc, hk]
            · simp [resolveRootFuel, resolveStep, resolveComponentsWith,
                resolveIndexMapWith, hs, hsp, hc, hsc, hcat]
      · simp [resolveRootFuel, resolveStep, hs, hsp, hroot]

theorem resolveRootFuel_mono {Cb Ex Hd Lk Pa Rb Rs Sc Ss R T : Type} (lit : String)
    (proj : Components Cb Ex Hd Lk Pa Rb Rs Sc Ss → List (String × ReferenceOr T)) :
    ∀ (n : Nat) (o : OpenAPI Cb Ex Hd Lk Pa Rb Rs Sc Ss R) (path : String)
      (r : Option T), resolveRootFuel lit proj n o path = some r →
      resolveRootFuel lit proj (n + 1) o path = some r := by
  intro n
  induction n with
  | zero => intro o path r h; exact absurd h (by simp [resolveRootFuel])
  | succ m ih =>
    intro o path r h
    rw [resolveRootFuel_succ] at h ⊢
    cases hstep : resolveStep lit proj o path with
    | notFound => rw [hstep] at h; exact h ▸ rfl
    | found x => rw [hstep] at h; exact h ▸ rfl
    | redirect s => rw [hstep] at h; exact ih o s r h

theorem resolveRootFuel_mono_le {Cb Ex Hd Lk Pa Rb Rs Sc Ss R T : Type} (lit : String)
    (proj : Components Cb Ex Hd Lk Pa Rb Rs Sc Ss → List (String × ReferenceOr T))
    {n m : Nat} (hnm : n ≤ m) (o : OpenAPI Cb Ex Hd Lk Pa Rb Rs Sc Ss R)
    (path : String) (r : Option T) (h : resolveRootFuel lit proj n o path = some r) :
    resolveRootFuel lit proj m o path = some r := by
  induction hnm with
  | refl => exact h
  | step _ ih => exact resolveRootFuel_mono lit proj _ o path r ih

theorem stripHashSlash_append (t : String) : stripHashSlash ("#/" ++ t) = some t := by
  rcases t with ⟨l⟩
  rfl

theorem stripHashSlash_some {path t : String} (h : stripHashSlash path = some t) :
    path = "#/" ++ t := by
  rcases path with ⟨l⟩
  unfold stripHashSlash at h
  split at h
  · next r heq =>
    cases h
    have hl : l = '#' :: '/' :: r := heq
    subst hl
    rfl
  · exact absurd h (by simp)

theorem splitOnce_seg {seg : String} (rest : String) (h : '/' ∉ seg.data) :
    splitOnce (seg ++ "/" ++ rest) '/' = some (seg, rest) := by
  have hdata : (seg ++ "/" ++ rest).data = seg.data ++ '/' :: rest.data := by
    simp [data_append]
  simp [splitOnce, hdata, splitOnceL_append h, mk_data_eta]

/-- General dispatch step on `#/components/<cat>/<name>`: the category segment
is compared with the instantiated literal; a mismatch is "not found". -/
theorem resolveRootFuel_mkPointer_cat {Cb Ex Hd Lk Pa Rb Rs Sc Ss R T : Type}
    (lit : String)
    (proj : Components Cb Ex Hd Lk Pa Rb Rs Sc Ss → List (String × ReferenceOr T))
    {cat : String} (hcat : '/' ∉ cat.data)
    {o : OpenAPI Cb Ex Hd Lk Pa Rb Rs Sc Ss R}
    {c : Components Cb Ex Hd Lk Pa Rb Rs Sc Ss}
    (hc : o.components = some c) (n : Nat) (name : String) :
    resolveRootFuel lit proj (n + 1) o (mkPointer cat name) =
      if cat = lit then
        resolveIndexMapWith (fun r => resolveRootFuel lit proj n o r) (proj c) name
      else some none := by
  have hcompNoSlash : ('/' : Char) ∉ "components".data := by decide
  simp only [resolveRootFuel, stripHashSlash_mkPointer, splitOnce, data_mk,
    splitOnceL_append hcompNoSlash, mk_data_eta, if_pos rfl, hc,
    resolveComponentsWith, splitOnceL_append hcat, if_true]

theorem resolveStep_no_components {Cb Ex Hd Lk Pa Rb Rs Sc Ss R T : Type}
    (lit : String)
    (proj : Components Cb Ex Hd Lk Pa Rb Rs Sc Ss → List (String × ReferenceOr T))
    {o : OpenAPI Cb Ex Hd Lk Pa Rb Rs Sc Ss R} (h : o.components = none)
    (path : String) : resolveStep lit proj o path = StepOutcome.notFound := by
  unfold resolveStep
  rw [h]
  rcases hs : stripHashSlash path with _ | stripped
  · simp [hs]
  · simp only [hs]
    rcases hsp : splitOnce stripped '/' with _ | ⟨root_path, sub_path⟩
    · simp [hsp]
    · simp only [hsp]
      by_cases hroot : root_path = "components" <;> simp [hroot]

/-- The dispatch step depends on the document only through the presence of the
component container and the contents of the selected category map. -/
theorem resolveStep_congr {Cb Ex Hd Lk Pa Rb Rs Sc Ss R1 R2 T : Type} (lit : String)
    (proj : Components Cb Ex Hd Lk Pa Rb Rs Sc Ss → List (String × ReferenceOr T))
    {o1 : OpenAPI Cb Ex Hd Lk Pa Rb Rs Sc Ss R1}
    {o2 : OpenAPI Cb Ex Hd Lk Pa Rb Rs Sc Ss R2}
    (h : Option.map proj o1.components = Option.map proj o2.components)
    (path : String) : resolveStep lit proj o1 path = resolveStep lit proj o2 path := by
  rcases h1 : o1.components with _ | c1 <;> rcases h2 : o2.components with _ | c2
  · unfold resolveStep
    rw [h1, h2]
  · rw [h1, h2] at h
    exact absurd h (by simp)
  · rw [h1, h2] at h
    exact absurd h (by simp)
  · rw [h1, h2] at h
    have hpc : proj c1 = proj c2 := by simpa using h
    unfold resolveStep
    rw [h1, h2]
    simp only [hpc]

/-! ### Claim theorems -/

/-- C4: resolving an `Inline(x)` reference node yields a handle equal to `x`
for every document and every amount of fuel, and the result is independent of
the document: two arbitrary documents (even with differently-typed remaining
sections, and including one without a component container) give the same
result. -/
theorem c4_inline_identity {Cb Ex Hd Lk Pa Rb Rs Sc Ss R R' T : Type} (lit : String)
    (proj : Components Cb Ex Hd Lk Pa Rb Rs Sc Ss → List (String × ReferenceOr T))
    (n n' : Nat) (x : T) (o : OpenAPI Cb Ex Hd Lk Pa Rb Rs Sc Ss R)
    (o' : OpenAPI Cb Ex Hd Lk Pa Rb Rs Sc Ss R') :
    resolveRefOrFuel lit proj n (ReferenceOr.Item x) o = some (some x) ∧
    resolveRefOrFuel lit proj n (ReferenceOr.Item x) o =
      resolveRefOrFuel lit proj n' (ReferenceOr.Item x) o' :=
  ⟨rfl, rfl⟩

/-- C8: resolving an absent optional reference node returns `None` directly
and independently of the document; a present optional node behaves exactly as
resolving the contained reference node. -/
theorem c8_optional_reference {Cb Ex Hd Lk Pa Rb Rs Sc Ss R R' T : Type} (lit : String)
    (proj : Components Cb Ex Hd Lk Pa Rb Rs Sc Ss → List (String × ReferenceOr T))
    (n n' : Nat) (node : ReferenceOr T) (o : OpenAPI Cb Ex Hd Lk Pa Rb Rs Sc Ss R)
    (o' : OpenAPI Cb Ex Hd Lk Pa Rb Rs Sc Ss R') :
    resolveOptRefOrFuel lit proj n (none : Option (ReferenceOr T)) o = some none ∧
    resolveOptRefOrFuel lit proj n (none : Option (ReferenceOr T)) o =
      resolveOptRefOrFuel lit proj n' (none : Option (ReferenceOr T)) o' ∧
    resolveOptRefOrFuel lit proj n (some node) o = resolveRefOrFuel lit proj n node o :=
  ⟨rfl, rfl, rfl⟩

/-- C5: direct lookup — whenever the category map of the entity type contains
`k ↦ Inline(x)`, resolving the pointer `#/components/<category>/k` (with the
type's category literal) yields `x`: every positive amount of fuel returns
`Some x`, so the resolution terminates with `x`. -/
theorem c5_direct_lookup {Cb Ex Hd Lk Pa Rb Rs Sc Ss R T : Type} (lit : String)
    (proj : Components Cb Ex Hd Lk Pa Rb Rs Sc Ss → List (String × ReferenceOr T))
    (hlit : '/' ∉ lit.data) {o : OpenAPI Cb Ex Hd Lk Pa Rb Rs Sc Ss R}
    {c : Components Cb Ex Hd Lk Pa Rb Rs Sc Ss} (hc : o.components = some c)
    (k : String) (x : T) (hk : getKey (proj c) k = some (ReferenceOr.Item x)) :
    (∀ n : Nat, resolveRootFuel lit proj (n + 1) o (mkPointer lit k) = some (some x)) ∧
    Resolves lit proj o (mkPointer lit k) (some x) := by
  have hmain : ∀ n : Nat,
      resolveRootFuel lit proj (n + 1) o (mkPointer lit k) = some (some x) := by
    intro n
    rw [resolveRootFuel_mkPointer lit proj hlit hc n k]
    simp [resolveIndexMapWith, hk]
  exact ⟨hmain, 1, hmain 0⟩

/-- Witness for C5: in `docDirect`, `schemas` maps `a ↦ Inline(5)` and the
pointer `#/components/schemas/a` resolves to `5`. -/
theorem c5_direct_lookup_witness :
    resolveRootFuel "schemas" Components.schemas 1 docDirect
      (mkPointer "schemas" "a") = some (some 5) :=
  (c5_direct_lookup "schemas" Components.schemas (by decide) rfl "a" 5 (by decide)).1 0

/-- C2: transitive chains — for any finite acyclic pointer chain inside the
category map (`k₀ ↦ Pointer(#/components/<cat>/k₁)`, …, ending at an inline
item `x`), resolving `k₀`'s pointer string through the document-level dispatch
terminates with `x`. The two-hop case `k1 ↦ Pointer(#/components/<cat>/k2)`,
`k2 ↦ Inline(x)` is the chain `[k1, k2]`. -/
theorem c2_transitive_chains {Cb Ex Hd Lk Pa Rb Rs Sc Ss R T : Type} (lit : String)
    (proj : Components Cb Ex Hd Lk Pa Rb Rs Sc Ss → List (String × ReferenceOr T))
    (hlit : '/' ∉ lit.data) {o : OpenAPI Cb Ex Hd Lk Pa Rb Rs Sc Ss R}
    {c : Components Cb Ex Hd Lk Pa Rb Rs Sc Ss} (hc : o.components = some c)
    (x : T) :
    ∀ (ks : List String) (k : String), PointerChain lit (proj c) x (k :: ks) →
      Resolves lit proj o (mkPointer lit k) (some x) := by
  intro ks
  induction ks with
  | nil =>
    intro k hchain
    have hk : getKey (proj c) k = some (ReferenceOr.Item x) := hchain
    refine ⟨1, ?_⟩
    rw [resolveRootFuel_mkPointer lit proj hlit hc 0 k]
    simp [resolveIndexMapWith, hk]
  | cons k' rest ih =>
    intro k hchain
    simp only [PointerChain] at hchain
    obtain ⟨hk, htail⟩ := hchain
    obtain ⟨n, hn⟩ := ih k' htail
    refine ⟨n + 1, ?_⟩
    rw [resolveRootFuel_mkPointer lit proj hlit hc n k]
    simp only [resolveIndexMapWith, hk]
    exact hn

/-- Witness for C2: in `docChain`, `k1 ↦ Pointer(#/components/schemas/k2)` and
`k2 ↦ Inline(7)`; resolving `#/components/schemas/k1` yields `7`. -/
theorem c2_transitive_chains_witness :
    Resolves "schemas" Components.schemas docChain (mkPointer "schemas" "k1") (some 7) :=
  c2_transitive_chains "schemas" Components.schemas (by decide) rfl 7 ["k2"] "k1"
    ⟨by decide,
     (by decide : getKey (Components.schemas compChain) "k2" = some (ReferenceOr.Item 7))⟩

/-- C6: no sub-path descent — for a pointer with a fourth segment the entire
tail after the category segment is looked up verbatim as a single map key:
resolution fails when no key literally equal to `k1 ++ "/" ++ k2` exists
(whatever is stored under `k1` alone), and succeeds exactly on a map that does
store such a slash-containing key. -/
theorem c6_no_subpath_descent {Cb Ex Hd Lk Pa Rb Rs Sc Ss R T : Type} (lit : String)
    (proj : Components Cb Ex Hd Lk Pa Rb Rs Sc Ss → List (String × ReferenceOr T))
    (hlit : '/' ∉ lit.data) {o : OpenAPI Cb Ex Hd Lk Pa Rb Rs Sc Ss R}
    {c : Components Cb Ex Hd Lk Pa Rb Rs Sc Ss} (hc : o.components = some c)
    (k1 k2 : String) (n : Nat) :
    (getKey (proj c) (k1 ++ "/" ++ k2) = none →
      resolveRootFuel lit proj (n + 1) o (mkPointer lit (k1 ++ "/" ++ k2)) = some none) ∧
    (∀ x : T, getKey (proj c) (k1 ++ "/" ++ k2) = some (ReferenceOr.Item x) →
      resolveRootFuel lit proj (n + 1) o (mkPointer lit (k1 ++ "/" ++ k2)) = some (some x)) := by
  constructor
  · intro hk
    rw [resolveRootFuel_mkPointer lit proj hlit hc n (k1 ++ "/" ++ k2)]
    simp [resolveIndexMapWith, hk]
  · intro x hk
    rw [resolveRootFuel_mkPointer lit proj hlit hc n (k1 ++ "/" ++ k2)]
    simp [resolveIndexMapWith, hk]

/-- Witness for C6: `#/components/schemas/schema_1/extra` is "not found" in
`docFourSeg` although `schema_1` itself exists, while in `docSlashKey` the
same pointer finds the entry stored under the literal key `schema_1/extra`. -/
theorem c6_no_subpath_descent_witness :
    resolveRootFuel "schemas" Components.schemas 1 docFourSeg
      (mkPointer "schemas" ("schema_1" ++ "/" ++ "extra")) = some none ∧
    resolveRootFuel "schemas" Components.schemas 1 docSlashKey
      (mkPointer "schemas" ("schema_1" ++ "/" ++ "extra")) = some (some 2) :=
  ⟨(c6_no_subpath_descent "schemas" Components.schemas (by decide) rfl
      "schema_1" "extra" 0).1 (by decide),
   (c6_no_subpath_descent "schemas" Components.schemas (by decide) rfl
      "schema_1" "extra" 0).2 2 (by decide)⟩

/-- C9 counterexample: in `docEmptyKeyRef` the schemas map does contain an
entry under the empty-string key (a dangling reference), yet resolving
`#/components/schemas/` terminates with `None` — so "resolves to `Some` value
exactly when the category map contains an entry under the empty-string key"
is false as stated. -/
theorem c9_empty_name_counterexample :
    getKey (Components.schemas compEmptyKeyRef) "" = some (ReferenceOr.Reference "x") ∧
    resolveSchema 2 docEmptyKeyRef (mkPointer "schemas" "") = some none := by
  decide

/-- C9 (amended): the code indeed does not enforce non-empty names — the empty
name segment of `#/components/<cat>/` is looked up verbatim as the
empty-string map key, and resolution then behaves exactly as the category-map
lookup of `""` dictates: no entry gives `None`, an inline entry gives its
value, and a reference entry is chased like any other reference (so a
dangling reference under `""` still gives `None`). -/
theorem c9_empty_name_verbatim {Cb Ex Hd Lk Pa Rb Rs Sc Ss R T : Type} (lit : String)
    (proj : Components Cb Ex Hd Lk Pa Rb Rs Sc Ss → List (String × ReferenceOr T))
    (hlit : '/' ∉ lit.data) {o : OpenAPI Cb Ex Hd Lk Pa Rb Rs Sc Ss R}
    {c : Components Cb Ex Hd Lk Pa Rb Rs Sc Ss} (hc : o.components = some c)
    (n : Nat) :
    resolveRootFuel lit proj (n + 1) o (mkPointer lit "") =
      resolveIndexMapWith (fun r => resolveRootFuel lit proj n o r) (proj c) "" ∧
    (getKey (proj c) "" = none →
      resolveRootFuel lit proj (n + 1) o (mkPointer lit "") = some none) ∧
    (∀ x : T, getKey (proj c) "" = some (ReferenceOr.Item x) →
      resolveRootFuel lit proj (n + 1) o (mkPointer lit "") = some (some x)) := by
  refine ⟨resolveRootFuel_mkPointer lit proj hlit hc n "", ?_, ?_⟩
  · intro hk
    rw [resolveRootFuel_mkPointer lit proj hlit hc n ""]
    simp [resolveIndexMapWith, hk]
  · intro x hk
    rw [resolveRootFuel_mkPointer lit proj hlit hc n ""]
    simp [resolveIndexMapWith, hk]

/-- Witness for the amended C9: with an inline entry under the empty-string
key, `#/components/schemas/` resolves to it; with an empty map it is "not
found". -/
theorem c9_empty_name_verbatim_witness :
    resolveRootFuel "schemas" Components.schemas 1 docEmptyKeyItem
      (mkPointer "schemas" "") = some (some 4) ∧
    resolveRootFuel "schemas" Components.schemas 1 docDirect
      (mkPointer "schemas" "") = some none :=
  ⟨(c9_empty_name_verbatim "schemas" Components.schemas (by decide) rfl 0).2.2 4 (by decide),
   (c9_empty_name_verbatim "schemas" Components.schemas (by decide) rfl 0).2.1 (by decide)⟩

/-- C3: every failure mode returns the single absence value `None` (encoded
`some none`: the run terminates, with no partial result and no distinct error
kind): (a) a path not starting with `#/`; (b) no `/` separator after the
stripped `#/`; (c) a root segment different from `components`; (d) an absent
component container (for every path); (e) a category segment different from
the entity type's literal; (f) a name absent from the category map; (g) a
dangling reference anywhere in the chain (the failure of the chased pointer
propagates unchanged). -/
theorem c3_failure_modes {Cb Ex Hd Lk Pa Rb Rs Sc Ss R T : Type} (lit : String)
    (proj : Components Cb Ex Hd Lk Pa Rb Rs Sc Ss → List (String × ReferenceOr T))
    (o : OpenAPI Cb Ex Hd Lk Pa Rb Rs Sc Ss R) (n : Nat) :
    (∀ path : String, (∀ t : String, path ≠ "#/" ++ t) →
      resolveRootFuel lit proj (n + 1) o path = some none) ∧
    (∀ t : String, '/' ∉ t.data →
      resolveRootFuel lit proj (n + 1) o ("#/" ++ t) = some none) ∧
    (∀ seg rest : String, '/' ∉ seg.data → seg ≠ "components" →
      resolveRootFuel lit proj (n + 1) o ("#/" ++ (seg ++ "/" ++ rest)) = some none) ∧
    (o.components = none → ∀ path : String,
      resolveRootFuel lit proj (n + 1) o path = some none) ∧
    (∀ c, o.components = some c → ∀ cat k : String, '/' ∉ cat.data → cat ≠ lit →
      resolveRootFuel lit proj (n + 1) o (mkPointer cat k) = some none) ∧
    (∀ c, o.components = some c → '/' ∉ lit.data → ∀ k : String,
      getKey (proj c) k = none →
      resolveRootFuel lit proj (n + 1) o (mkPointer lit k) = some none) ∧
    (∀ c, o.components = some c → '/' ∉ lit.data → ∀ k r : String,
      getKey (proj c) k = some (ReferenceOr.Reference r) →
      resolveRootFuel lit proj n o r = some none →
      resolveRootFuel lit proj (n + 1) o (mkPointer lit k) = some none) := by
  refine ⟨?_, ?_, ?_, ?_, ?_, ?_, ?_⟩
  · intro path hne
    have hs : stripHashSlash path = none := by
      cases hss : stripHashSlash path with
      | none => rfl
      | some t => exact absurd (stripHashSlash_some hss) (hne t)
    simp [resolveRootFuel, hs]
  · intro t ht
    have hsp : splitOnce t '/' = none := by
      simp [splitOnce, splitOnceL_eq_none ht]
    simp [resolveRootFuel, stripHashSlash_append, hsp]
  · intro seg rest hseg hne
    simp [resolveRootFuel, stripHashSlash_append, splitOnce_seg rest hseg, hne]
  · intro h path
    rw [resolveRootFuel_succ, resolveStep_no_components lit proj h path]
  · intro c hc cat k hcat hne
    rw [resolveRootFuel_mkPointer_cat lit proj hcat hc n k]
    simp [hne]
  · intro c hc hlit k hk
    rw [resolveRootFuel_mkPointer lit proj hlit hc n k]
    simp [resolveIndexMapWith, hk]
  · intro c hc hlit k r hk hr
    rw [resolveRootFuel_mkPointer lit proj hlit hc n k]
    simp only [resolveIndexMapWith, hk]
    exact hr

/-- Witness for C3: all seven failure modes evaluated on concrete documents
and pointers, each returning the single absence value. -/
theorem c3_failure_modes_witness :
    resolveRootFuel "schemas" Components.schemas 1 docDirect "nope" = some none ∧
    resolveRootFuel "schemas" Components.schemas 1 docDirect ("#/" ++ "nosep") = some none ∧
    resolveRootFuel "schemas" Components.schemas 1 docDirect
      ("#/" ++ ("other" ++ "/" ++ "x")) = some none ∧
    resolveRootFuel "schemas" Components.schemas 1 docNoComp
      (mkPointer "schemas" "a") = some none ∧
    resolveRootFuel "schemas" Components.schemas 1 docDirect
      (mkPointer "schemaz" "a") = some none ∧
    resolveRootFuel "schemas" Components.schemas 1 docDirect
      (mkPointer "schemas" "missing") = some none ∧
    resolveRootFuel "schemas" Components.schemas 2 docDangling
      (mkPointer "schemas" "d") = some none := by
  refine ⟨?_, ?_, ?_, ?_, ?_, ?_, ?_⟩
  · refine (c3_failure_modes "schemas" Components.schemas docDirect 0).1 "nope" ?_
    intro t h
    have h1 := stripHashSlash_append t
    rw [← h] at h1
    have h0 : stripHashSlash "nope" = none := by decide
    rw [h0] at h1
    exact absurd h1 (by simp)
  · exact (c3_failure_modes "schemas" Components.schemas docDirect 0).2.1 "nosep" (by decide)
  · exact (c3_failure_modes "schemas" Components.schemas docDirect 0).2.2.1 "other" "x"
      (by decide) (by decide)
  · exact (c3_failure_modes "schemas" Components.schemas docNoComp 0).2.2.2.1 rfl
      (mkPointer "schemas" "a")
  · exact (c3_failure_modes "schemas" Components.schemas docDirect 0).2.2.2.2.1 compDirect
      rfl "schemaz" "a" (by decide) (by decide)
  · exact (c3_failure_modes "schemas" Components.schemas docDirect 0).2.2.2.2.2.1 compDirect
      rfl (by decide) "missing" (by decide)
  · exact (c3_failure_modes "schemas" Components.schemas docDangling 1).2.2.2.2.2.2 compDangling
      rfl (by decide) "d" (mkPointer "schemas" "missing") (by decide) (by decide)

/-- C10: resolution of an entity type consults only that type's own category
map — two documents that agree on the presence of the component container and
on the selected category map (`Option.map proj` of their containers), but may
differ arbitrarily in the other eight maps and in all remaining document
sections (even differently typed), resolve every pointer string identically
at every amount of fuel. -/
theorem c10_depends_only_on_own_map {Cb Ex Hd Lk Pa Rb Rs Sc Ss R1 R2 T : Type}
    (lit : String)
    (proj : Components Cb Ex Hd Lk Pa Rb Rs Sc Ss → List (String × ReferenceOr T))
    (o1 : OpenAPI Cb Ex Hd Lk Pa Rb Rs Sc Ss R1)
    (o2 : OpenAPI Cb Ex Hd Lk Pa Rb Rs Sc Ss R2)
    (h : Option.map proj o1.components = Option.map proj o2.components) :
    ∀ (n : Nat) (path : String),
      resolveRootFuel lit proj n o1 path = resolveRootFuel lit proj n o2 path := by
  intro n
  induction n with
  | zero => intro path; rfl
  | succ m ih =>
    intro path
    rw [resolveRootFuel_succ, resolveRootFuel_succ, resolveStep_congr lit proj h path]
    cases resolveStep lit proj o2 path with
    | notFound => rfl
    | found x => rfl
    | redirect r => exact ih r

/-- Witness for C10: `docDirect` and `docOtherSections` share the schemas map
but differ in the responses and headers maps and in the remaining sections
(of different types); a schema pointer resolves identically on both. -/
theorem c10_depends_only_on_own_map_witness :
    resolveRootFuel "schemas" Components.schemas 1 docDirect (mkPointer "schemas" "a") =
      resolveRootFuel "schemas" Components.schemas 1 docOtherSections
        (mkPointer "schemas" "a") :=
  c10_depends_only_on_own_map "schemas" Components.schemas docDirect docOtherSections
    (by decide) 1 (mkPointer "schemas" "a")

theorem cyc_diverges : ∀ n : Nat,
    resolveSchema n docCyc (mkPointer "schemas" "a") = none ∧
    resolveSchema n docCyc (mkPointer "schemas" "b") = none := by
  intro n
  induction n with
  | zero => exact ⟨rfl, rfl⟩
  | succ m ih =>
    constructor
    · show resolveRootFuel "schemas" Components.schemas (m + 1) docCyc
        (mkPointer "schemas" "a") = none
      rw [resolveRootFuel_succ]
      have hstep : resolveStep "schemas" Components.schemas docCyc
          (mkPointer "schemas" "a") = StepOutcome.redirect (mkPointer "schemas" "b") := by
        decide
      rw [hstep]
      exact ih.2
    · show resolveRootFuel "schemas" Components.schemas (m + 1) docCyc
        (mkPointer "schemas" "b") = none
      rw [resolveRootFuel_succ]
      have hstep : resolveStep "schemas" Components.schemas docCyc
          (mkPointer "schemas" "b") = StepOutcome.redirect (mkPointer "schemas" "a") := by
        decide
      rw [hstep]
      exact ih.1

/-- C7: the dispatch recursion has no cycle or depth guard — a run terminates
(some amount of fuel returns an answer) exactly when the redirect chain from
the pointer reaches an inline item or a failing step (`Halts`); and on the
concrete cyclic document `docCyc` (`a ↦ Pointer(b)`, `b ↦ Pointer(a)`)
resolution exhausts every amount of fuel, i.e. recurses unboundedly and never
returns. -/
theorem c7_termination_iff_halts {Cb Ex Hd Lk Pa Rb Rs Sc Ss R T : Type} (lit : String)
    (proj : Components Cb Ex Hd Lk Pa Rb Rs Sc Ss → List (String × ReferenceOr T))
    (o : OpenAPI Cb Ex Hd Lk Pa Rb Rs Sc Ss R) :
    (∀ path : String,
      (∃ (n : Nat) (r : Option T), resolveRootFuel lit proj n o path = some r) ↔
        Halts lit proj o path) ∧
    (∀ n : Nat, resolveSchema n docCyc (mkPointer "schemas" "a") = none) := by
  constructor
  · intro path
    constructor
    · rintro ⟨n, r, h⟩
      induction n generalizing path r with
      | zero => exact absurd h (by simp [resolveRootFuel])
      | succ m ih =>
        rw [resolveRootFuel_succ] at h
        cases hstep : resolveStep lit proj o path with
        | notFound => exact Halts.fail hstep
        | found x => exact Halts.found hstep
        | redirect s =>
          rw [hstep] at h
          exact Halts.step hstep (ih s r h)
    · intro hh
      induction hh with
      | fail hstep => exact ⟨1, none, by rw [resolveRootFuel_succ, hstep]⟩
      | found hstep => exact ⟨1, some _, by rw [resolveRootFuel_succ, hstep]⟩
      | step hstep _ ih =>
        obtain ⟨n, r, hn⟩ := ih
        exact ⟨n + 1, r, by rw [resolveRootFuel_succ, hstep]; exact hn⟩
  · intro n
    exact (cyc_diverges n).1

/-- C1 (failing-input evaluation): `docTwoWords` stores `k` in the
request-bodies map and `s` in the security-schemes map, yet the pointer
strings with the spec's category literals `requestBodies` and
`securitySchemes` resolve to `None` at every positive amount of fuel — the
code matches the category segment against `stringify!($property_name)`, i.e.
the Rust field identifiers `request_bodies` and `security_schemes`, and those
snake-case pointers do resolve to the stored entries. -/
theorem c1_camel_case_literals_not_found :
    (∀ n : Nat, resolveRequestBody (n + 1) docTwoWords
      "#/components/requestBodies/k" = some none) ∧
    (∀ n : Nat, resolveSecurityScheme (n + 1) docTwoWords
      "#/components/securitySchemes/s" = some none) ∧
    resolveRequestBody 1 docTwoWords "#/components/request_bodies/k" = some (some 9) ∧
    resolveSecurityScheme 1 docTwoWords "#/components/security_schemes/s" = some (some 3) := by
  refine ⟨?_, ?_, by decide, by decide⟩
  · intro n
    show resolveRootFuel "request_bodies" Components.request_bodies (n + 1) docTwoWords
      "#/components/requestBodies/k" = some none
    rw [resolveRootFuel_succ]
    have hstep : resolveStep "request_bodies" Components.request_bodies docTwoWords
        "#/components/requestBodies/k" = StepOutcome.notFound := by decide
    rw [hstep]
  · intro n
    show resolveRootFuel "security_schemes" Components.security_schemes (n + 1) docTwoWords
      "#/components/securitySchemes/s" = some none
    rw [resolveRootFuel_succ]
    have hstep : resolveStep "security_schemes" Components.security_schemes docTwoWords
        "#/components/securitySchemes/s" = StepOutcome.notFound := by decide
    rw [hstep]
